import Mathlib

/-!
# Verification of the e-commerce store core (store/models.py, store/serializers.py, store/views.py)

Shallow embedding of the repository's data model and the operations the
specification's claims are about.  The relational store is a record of row
lists; machine integers are `Nat`; `DecimalField(max_digits=6, decimal_places=2)`
monetary values are represented exactly as `Nat` cents; fallible request
handlers return `Except Err`.

Error kinds follow the specification's taxonomy (spec §7).  The mapping from
the code's surface to kinds is fixed once and used throughout:
* a DRF `serializers.ValidationError` (HTTP 400 with code `invalid` /
  `min_value`, as asserted by the repository's tests) is `Err.invalidArgument`;
* a `get_object` miss (HTTP 404 `not_found`) is `Err.notFound`;
* the cancel guard's rejection of a non-pending order (HTTP 400
  "Only pending orders can be cancelled.") is `Err.invalidState`;
* the blocked-delete refusal produced by `CollectionViewSet.destroy`
  ("deletion blocked by dependent-entity policy", spec §7) is `Err.conflict`;
* an exception the code does not translate at all (Django `ProtectedError`,
  `IntegrityError`, `ImproperlyConfigured` — an HTTP 500) is `Err.internal`.

An `Except.error` result models a request aborted inside `transaction.atomic`:
the durable store is rolled back, i.e. unchanged.  The `run*` helpers make
that rollback explicit where a claim speaks about persisted rows.

Inert columns (slugs, free-text descriptions, auto timestamps, phone numbers)
are omitted: no claim and no control flow of the embedded operations reads
them.
-/

deriving instance DecidableEq for Except

namespace ECommerce

/-- Error kinds of spec §7, plus `internal` for exceptions the code leaves
untranslated (surfaced as HTTP 500). -/
inductive Err where
  | notFound
  | invalidArgument
  | invalidState
  | forbidden
  | conflict
  | internal
deriving DecidableEq, Repr

/-- models.py `Order.STATUS_CHOICES`: the seven enumerated status values. -/
inductive OrderStatus where
  | pending
  | shipped
  | transit
  | delivery
  | complete
  | failed
  | cancelled
deriving DecidableEq, Repr

/-- models.py `Order.STATUS_CHOICES`: the stable one-letter code of each
status ('P','S','T','D','C','F','X'). -/
def OrderStatus.code : OrderStatus → String
  | .pending => "P"
  | .shipped => "S"
  | .transit => "T"
  | .delivery => "D"
  | .complete => "C"
  | .failed => "F"
  | .cancelled => "X"

/-- Decoding a submitted status code against `Order.STATUS_CHOICES`
(`none` models DRF's `invalid_choice` rejection). -/
def statusOfCode (c : String) : Option OrderStatus :=
  if c = "P" then some .pending
  else if c = "S" then some .shipped
  else if c = "T" then some .transit
  else if c = "D" then some .delivery
  else if c = "C" then some .complete
  else if c = "F" then some .failed
  else if c = "X" then some .cancelled
  else none

/-- models.py `Collection`: title plus optional featured product
(`on_delete=SET_NULL`). -/
structure Collection where
  id : Nat
  title : String
  featuredProduct : Option Nat
deriving DecidableEq, Repr

/-- models.py `Product`: price is `DecimalField(max_digits=6, decimal_places=2,
validators=[MinValueValidator(1)])`, held here exactly as cents. -/
structure Product where
  id : Nat
  title : String
  price : Nat
  inventory : Nat
  collection : Nat
deriving DecidableEq, Repr

/-- models.py `Cart`: a UUID primary key (opaque identifier, modelled as a
`Nat`) and an auto timestamp (inert, omitted). -/
structure Cart where
  id : Nat
deriving DecidableEq, Repr

/-- models.py `CartItem`: cart FK (`CASCADE`), product FK (`CASCADE`),
quantity with `MinValueValidator(1)`. -/
structure CartItem where
  id : Nat
  cart : Nat
  product : Nat
  quantity : Nat
deriving DecidableEq, Repr

/-- models.py `Customer`: one profile per auth user. -/
structure Customer where
  id : Nat
  user : Nat
deriving DecidableEq, Repr

/-- models.py `Order`: customer FK (`PROTECT`), status defaulting to
pending, auto `placed_at` timestamp (inert, omitted). -/
structure Order where
  id : Nat
  customer : Nat
  status : OrderStatus
deriving DecidableEq, Repr

/-- models.py `OrderItem`: order FK (`PROTECT`), product FK (`PROTECT`),
quantity.  Note there is no price column: nothing is snapshotted at
conversion time. -/
structure OrderItem where
  id : Nat
  order : Nat
  product : Nat
  quantity : Nat
deriving DecidableEq, Repr

/-- models.py `Review`: product FK (`CASCADE`); the text columns are inert. -/
structure Review where
  id : Nat
  product : Nat
deriving DecidableEq, Repr

/-- The relational store: one row list per table plus the auto-increment
counters the embedded operations allocate primary keys from. -/
structure Store where
  collections : List Collection
  products : List Product
  carts : List Cart
  cartItems : List CartItem
  customers : List Customer
  orders : List Order
  orderItems : List OrderItem
  reviews : List Review
  nextCartItemId : Nat
  nextOrderId : Nat
  nextOrderItemId : Nat
deriving DecidableEq, Repr

/-- `Product.objects.filter(pk=pid)` / attribute access through the FK. -/
def findProduct (st : Store) (pid : Nat) : Option Product :=
  st.products.find? (fun p => p.id == pid)

/-- `Collection.objects` lookup by primary key. -/
def findCollection (st : Store) (cid : Nat) : Option Collection :=
  st.collections.find? (fun c => c.id == cid)

/-- `Order.objects` lookup by primary key (`get_object`). -/
def findOrder (st : Store) (oid : Nat) : Option Order :=
  st.orders.find? (fun o => o.id == oid)

/-- serializers.py `Customer.objects.get(user_id=...)`. -/
def customerByUser (st : Store) (uid : Nat) : Option Customer :=
  st.customers.find? (fun cu => cu.user == uid)

/-- `CartItem.objects.filter(cart_id=c)`: the cart's rows. -/
def cartItemsOf (st : Store) (c : Nat) : List CartItem :=
  st.cartItems.filter (fun it => it.cart == c)

/-- `OrderItem.objects.filter(order_id=oid)`: the order's rows. -/
def orderItemsOf (st : Store) (oid : Nat) : List OrderItem :=
  st.orderItems.filter (fun oi => oi.order == oid)

/-- The rows holding a given natural key (cart, product) — the key the
models.py constraint `unique_product_per_cart` ranges over. -/
def cartRowsFor (st : Store) (c p : Nat) : List CartItem :=
  st.cartItems.filter (fun it => it.cart == c && it.product == p)

/-- `item.product.price` resolved through the FK at read time (0 is never
reached on FK-consistent stores). -/
def productPrice (st : Store) (pid : Nat) : Nat :=
  match findProduct st pid with
  | some p => p.price
  | none => 0

/-- serializers.py `CartItemSerializer.get_total_price`:
`Decimal(cart_item.quantity) * cart_item.product.price`. -/
def cartItemTotalPrice (st : Store) (it : CartItem) : Nat :=
  it.quantity * productPrice st it.product

/-- serializers.py `CartSerializer.get_total_price`:
`sum(item.quantity * item.product.price for item in cart.items.all())`. -/
def cartTotalPrice (st : Store) (c : Nat) : Nat :=
  ((cartItemsOf st c).map (fun it => it.quantity * productPrice st it.product)).sum

/-- serializers.py `OrderItemSerializer.get_total_price`:
`Decimal(order_item.quantity) * order_item.product.price` — resolved from the
current product row at the moment of the read. -/
def orderItemTotalPrice (st : Store) (oi : OrderItem) : Nat :=
  oi.quantity * productPrice st oi.product

/-- serializers.py `OrderSerializer.get_total_price`:
`sum(item.quantity * item.product.price for item in order.items.all())`. -/
def orderTotalPrice (st : Store) (oid : Nat) : Nat :=
  ((orderItemsOf st oid).map (fun oi => oi.quantity * productPrice st oi.product)).sum

/-- The models.py constraint `unique_product_per_cart`: no two `CartItem`
rows share a (cart, product) pair. -/
abbrev UniqueCartProduct (st : Store) : Prop :=
  st.cartItems.Pairwise (fun a b => ¬(a.cart = b.cart ∧ a.product = b.product))

/-- Store well-formedness: primary keys are unique and below their
auto-increment counters, and order FKs point below the order counter —
exactly what a relational store's key allocation guarantees. -/
abbrev WF (st : Store) : Prop :=
  (∀ it ∈ st.cartItems, it.id < st.nextCartItemId) ∧
  (st.cartItems.map (fun it => it.id)).Nodup ∧
  (∀ o ∈ st.orders, o.id < st.nextOrderId) ∧
  (st.orders.map (fun o => o.id)).Nodup ∧
  (∀ oi ∈ st.orderItems, oi.id < st.nextOrderItemId) ∧
  (∀ oi ∈ st.orderItems, oi.order < st.nextOrderId)

/-- The upper bound of the models.py quantity fields.  `CartItem.quantity`
and `OrderItem.quantity` are `PositiveSmallIntegerField`s; Django appends a
backend-derived `MaxValueValidator` to integer model fields, and for the
MySQL backend configured in ecommerce_project/settings/dev.py the
`PositiveSmallIntegerField` range is 0..65535 (unsigned smallint).  DRF's
`ModelSerializer` maps the bound into the serializer field as `max_value`,
rejecting larger quantities with a 400 `max_value` `ValidationError`. -/
def maxQuantity : Nat := 65535

/-- serializers.py `CartItemPostSerializer` (`validate_product_id`, the
model-derived quantity field, and `save`), composed with the store's
foreign-key enforcement on `CartItem.cart`:

* `validate_product_id` raises a `ValidationError` when no product has the
  given id ("No product with given product id was found.");
* the quantity field carries `MinValueValidator(1)` ("Ensure this value is
  greater than or equal to 1.") and the backend-derived upper bound
  `maxQuantity` ("Ensure this value is less than or equal to ...");
* `save` fetches the row with the same (cart_id, product_id), increments its
  quantity and saves it by primary key; when absent it inserts a new row —
  an insert whose cart FK the relational store rejects if the cart row does
  not exist (`IntegrityError`, untranslated).

Returns the saved row's primary key. -/
def addItem (st : Store) (cartId productId quantity : Nat) : Except Err (Store × Nat) :=
  if (findProduct st productId).isNone then
    .error .invalidArgument
  else if quantity < 1 || maxQuantity < quantity then
    .error .invalidArgument
  else
    match st.cartItems.find? (fun it => it.cart == cartId && it.product == productId) with
    | some it0 =>
        .ok ({ st with
                cartItems := st.cartItems.map (fun it =>
                  if it.id == it0.id then { it with quantity := it.quantity + quantity } else it) },
             it0.id)
    | none =>
        if (st.carts.find? (fun k => k.id == cartId)).isNone then
          .error .internal
        else
          .ok ({ st with
                  cartItems := st.cartItems ++ [⟨st.nextCartItemId, cartId, productId, quantity⟩],
                  nextCartItemId := st.nextCartItemId + 1 },
               st.nextCartItemId)

/-- serializers.py `OrderPostSerializer.create`, inner bulk create:
`OrderItem(order=order, product=item.product, quantity=item.quantity) for item
in cart_items`, with the store assigning consecutive primary keys from
`startId`. -/
def bulkCreateOrderItems (oid startId : Nat) : List CartItem → List OrderItem
  | [] => []
  | it :: rest => ⟨startId, oid, it.product, it.quantity⟩ :: bulkCreateOrderItems oid (startId + 1) rest

/-- serializers.py `OrderPostSerializer.create`, step 5:
`Cart.objects.filter(pk=cart_id).delete()` — the cart row goes away and its
`CartItem` rows cascade (`on_delete=CASCADE`). -/
def deleteCartCascade (st : Store) (c : Nat) : Store :=
  { st with
      carts := st.carts.filter (fun k => !(k.id == c)),
      cartItems := st.cartItems.filter (fun it => !(it.cart == c)) }

/-- serializers.py `OrderPostSerializer.create`, run inside
`@transaction.atomic`:

1. `Customer.objects.get(user_id=...)` — absent profile raises a
   `ValidationError` ("No customer with given user id was found.");
2. `Order.objects.create(customer=customer)` — a pending order row is
   inserted eagerly;
3. the cart's items are loaded; if there are none the code raises a
   `ValidationError` ("No items found in cart. Cannot create an empty
   order.") and the transaction — including the order row of step 2 —
   rolls back;
4. one `OrderItem` per `CartItem` is bulk-created, copying product and
   quantity verbatim;
5. the source cart is deleted and its items cascade.

Returns the new order's primary key.  An `Except.error` result is the
rolled-back transaction: no row of steps 2–5 persists. -/
def createOrder (st : Store) (userId cartId : Nat) : Except Err (Store × Nat) :=
  match customerByUser st userId with
  | none => .error .invalidArgument
  | some cu =>
    let oid := st.nextOrderId
    let st1 : Store :=
      { st with
          orders := ⟨oid, cu.id, .pending⟩ :: st.orders,
          nextOrderId := oid + 1 }
    let items := cartItemsOf st1 cartId
    if items.isEmpty then
      .error .invalidArgument
    else
      let newItems := bulkCreateOrderItems oid st1.nextOrderItemId items
      let st2 : Store :=
        { st1 with
            orderItems := st1.orderItems ++ newItems,
            nextOrderItemId := st1.nextOrderItemId + newItems.length }
      .ok (deleteCartCascade st2 cartId, oid)

/-- views.py `OrderViewSet.create` as the durable store sees it: the commit
of a successful conversion, the rollback (`@transaction.atomic`) of a failed
one. -/
def runCreateOrder (st : Store) (userId cartId : Nat) : Store :=
  match createOrder st userId cartId with
  | .ok (st', _) => st'
  | .error _ => st

/-- views.py `OrderViewSet.cancel` composed with models.py `Order.cancel`:
`get_object` (404 when absent), the pending guard ("Only pending orders can
be cancelled.", HTTP 400 — the spec's InvalidState kind), then
`status = STATUS_CANCELLED; save(update_fields=['status'])`. -/
def cancelOrder (st : Store) (oid : Nat) : Except Err Store :=
  match findOrder st oid with
  | none => .error .notFound
  | some o =>
    if o.status ≠ .pending then
      .error .invalidState
    else
      .ok { st with
              orders := st.orders.map (fun o2 =>
                if o2.id == oid then { o2 with status := .cancelled } else o2) }

/-- The cancel endpoint as the durable store sees it: a rejected cancel
leaves every row as it was. -/
def runCancelOrder (st : Store) (oid : Nat) : Store :=
  match cancelOrder st oid with
  | .ok st' => st'
  | .error _ => st

/-- models.py `Order`: the model's concrete field names (pk, `customer`,
`status`, `placed_at`). -/
def orderFieldNames : List String := ["id", "customer", "status", "placed_at"]

/-- serializers.py `OrderPatchSerializer.Meta.fields` — verbatim from the
source: the single name `payment_status`. -/
def orderPatchSerializerMetaFields : List String := ["payment_status"]

/-- DRF `ModelSerializer` field building (`build_unknown_field`): every name
in `Meta.fields` must be a model field or a declared serializer field,
otherwise constructing the serializer's fields raises `ImproperlyConfigured`
("Field name ... is not valid for model ..."). `OrderPatchSerializer`
declares no extra fields. -/
def orderPatchConfigOk : Bool :=
  orderPatchSerializerMetaFields.all (fun f => orderFieldNames.contains f)

/-- views.py `OrderViewSet` partial update (admin `setStatus` path):
`get_object` first (404 when the order is absent), then
`OrderPatchSerializer(instance, data, partial=True).is_valid()` — whose
field construction fails with `ImproperlyConfigured` (HTTP 500, untranslated,
`Err.internal`) whenever the serializer's `Meta.fields` name a non-field.
The branch after the configuration guard is the flow the repository's own
tests (test_order.py, `TestPartialUpdateOrder`) pin down: an unrecognized
code is rejected with `invalid_choice` (400), a recognized one is written to
the order's status. -/
def patchOrder (st : Store) (oid : Nat) (code : String) : Except Err Store :=
  match findOrder st oid with
  | none => .error .notFound
  | some _ =>
    if !orderPatchConfigOk then
      .error .internal
    else
      match statusOfCode code with
      | none => .error .invalidArgument
      | some ns =>
          .ok { st with
                  orders := st.orders.map (fun o2 =>
                    if o2.id == oid then { o2 with status := ns } else o2) }

/-- views.py `CollectionViewSet.destroy`: first the dependent-entity guard
`Product.objects.filter(collection_id=pk).exists()` — when it fires the
response is the blocked-delete refusal ("Collection cannot be deleted
because it includes one or more products."), the spec's Conflict kind —
then the framework `destroy` (`get_object` 404, then the row is deleted). -/
def destroyCollection (st : Store) (cid : Nat) : Except Err Store :=
  if st.products.any (fun p => p.collection == cid) then
    .error .conflict
  else
    match findCollection st cid with
    | none => .error .notFound
    | some _ => .ok { st with collections := st.collections.filter (fun c => !(c.id == cid)) }

/-- The collection-delete endpoint as the durable store sees it: a refused
deletion leaves every row — the collection included — as it was. -/
def runDestroyCollection (st : Store) (cid : Nat) : Store :=
  match destroyCollection st cid with
  | .ok st' => st'
  | .error _ => st

/-- views.py `ProductViewSet` delete (no `destroy` override) as executed by
the store's deletion collector over the models.py FK policies:
`get_object` (404 when absent); `OrderItem.product` is `on_delete=PROTECT`,
so a referenced product raises `ProtectedError` — untranslated, an HTTP 500
(`Err.internal`) — and nothing changes; otherwise the row is deleted,
`CartItem.product` (`CASCADE`) rows and `Review.product` (`CASCADE`) rows go
with it, and `Collection.featured_product` (`SET_NULL`) references are
nulled. -/
def deleteProduct (st : Store) (pid : Nat) : Except Err Store :=
  match findProduct st pid with
  | none => .error .notFound
  | some _ =>
    if st.orderItems.any (fun oi => oi.product == pid) then
      .error .internal
    else
      .ok { st with
              products := st.products.filter (fun p => !(p.id == pid)),
              cartItems := st.cartItems.filter (fun it => !(it.product == pid)),
              reviews := st.reviews.filter (fun r => !(r.product == pid)),
              collections := st.collections.map (fun c =>
                if c.featuredProduct == some pid then { c with featuredProduct := none } else c) }

/-- views.py `ProductViewSet` partial update of the price field:
`get_object` (404 when absent), then `ProductSerializer` validation of the
decimal field — `MinValueValidator(1)` (≥ 1.00, i.e. 100 cents) and
`max_digits=6, decimal_places=2` (≤ 9999.99, i.e. 999999 cents) — then the
row is saved with the new price. -/
def updateProductPrice (st : Store) (pid newPrice : Nat) : Except Err Store :=
  match findProduct st pid with
  | none => .error .notFound
  | some _ =>
    if newPrice < 100 || 999999 < newPrice then
      .error .invalidArgument
    else
      .ok { st with
              products := st.products.map (fun p =>
                if p.id == pid then { p with price := newPrice } else p) }

/-- A store with one collection, two products, one customer (auth user 42),
and one cart (id 7) holding two units of product 1. -/
def exStore : Store :=
  { collections := [⟨1, "Tools", none⟩],
    products := [⟨1, "Hammer", 1000, 5, 1⟩, ⟨2, "Wrench", 2500, 3, 1⟩],
    carts := [⟨7⟩],
    cartItems := [⟨1, 7, 1, 2⟩],
    customers := [⟨1, 42⟩],
    orders := [],
    orderItems := [],
    reviews := [],
    nextCartItemId := 2,
    nextOrderId := 1,
    nextOrderItemId := 1 }

/-- The store `createOrder exStore 42 7` produces: cart 7 and its item are
gone, order 1 holds the copied item. -/
def exConverted : Store :=
  { collections := [⟨1, "Tools", none⟩],
    products := [⟨1, "Hammer", 1000, 5, 1⟩, ⟨2, "Wrench", 2500, 3, 1⟩],
    carts := [],
    cartItems := [],
    customers := [⟨1, 42⟩],
    orders := [⟨1, 1, .pending⟩],
    orderItems := [⟨1, 1, 1, 2⟩],
    reviews := [],
    nextCartItemId := 2,
    nextOrderId := 2,
    nextOrderItemId := 2 }

/-- The store `exConverted` after an admin re-prices product 1 from 10.00
to 20.00. -/
def exRepriced : Store :=
  { exConverted with
      products := [⟨1, "Hammer", 2000, 5, 1⟩, ⟨2, "Wrench", 2500, 3, 1⟩] }

/-- A store with a pending order (id 1) and a shipped order (id 2). -/
def exOrders : Store :=
  { collections := [⟨1, "Tools", none⟩],
    products := [⟨1, "Hammer", 1000, 5, 1⟩],
    carts := [],
    cartItems := [],
    customers := [⟨1, 42⟩],
    orders := [⟨1, 1, .pending⟩, ⟨2, 1, .shipped⟩],
    orderItems := [],
    reviews := [],
    nextCartItemId := 1,
    nextOrderId := 3,
    nextOrderItemId := 1 }

/-- A store where collection 1 is referenced by product 5 and collection 2
is referenced by nothing. -/
def exC8 : Store :=
  { collections := [⟨1, "Tools", none⟩, ⟨2, "Garden", none⟩],
    products := [⟨5, "Saw", 3000, 2, 1⟩],
    carts := [],
    cartItems := [],
    customers := [],
    orders := [],
    orderItems := [],
    reviews := [],
    nextCartItemId := 1,
    nextOrderId := 1,
    nextOrderItemId := 1 }

/-- `exC8` after product 5 has been removed. -/
def exC8b : Store :=
  { exC8 with products := [] }

/-- A store where product 2 is referenced by an order item, while product 1
is referenced only by cart 7 (two units) and a review. -/
def exC10 : Store :=
  { collections := [⟨1, "Tools", none⟩],
    products := [⟨1, "Hammer", 1000, 5, 1⟩, ⟨2, "Wrench", 500, 3, 1⟩],
    carts := [⟨7⟩],
    cartItems := [⟨1, 7, 1, 2⟩],
    customers := [⟨1, 42⟩],
    orders := [⟨9, 1, .complete⟩],
    orderItems := [⟨1, 9, 2, 1⟩],
    reviews := [⟨1, 1⟩],
    nextCartItemId := 2,
    nextOrderId := 10,
    nextOrderItemId := 2 }

/-! Generic list helpers shared by the claim proofs. -/

theorem length_le_one_eq_singleton {α : Type} {l : List α} {a : α}
    (h : l.length ≤ 1) (ha : a ∈ l) : l = [a] := by
  match l with
  | [] => cases ha
  | [x] =>
    have : a = x := by simpa using ha
    rw [this]
  | x :: y :: rest => simp at h

theorem filter_not_filter_eq_nil {α : Type} (p : α → Bool) (l : List α) :
    (l.filter (fun x => !(p x))).filter p = [] := by
  rw [List.filter_filter]
  apply List.filter_eq_nil_iff.mpr
  intro a _
  simp

theorem find?_filter_not_eq_none {α : Type} (p : α → Bool) (l : List α) :
    (l.filter (fun x => !(p x))).find? p = none := by
  apply List.find?_eq_none.mpr
  intro x hx
  have h2 : p x = false := by simpa using (List.mem_filter.mp hx).2
  simp [h2]

theorem find?_map_setter {α : Type} (f : α → α) (p : α → Bool) (l : List α)
    (hp : ∀ x, p (f x) = p x) {q : α} (h : l.find? p = some q) :
    (l.map f).find? p = some (f q) := by
  induction l with
  | nil => simp at h
  | cons x xs ih =>
    by_cases hx : p x = true
    · rw [List.find?_cons_of_pos _ hx] at h
      injection h with h
      subst h
      rw [List.map_cons, List.find?_cons_of_pos _ (by rw [hp]; exact hx)]
    · rw [List.find?_cons_of_neg _ hx] at h
      rw [List.map_cons, List.find?_cons_of_neg _ (by rw [hp]; exact hx)]
      exact ih h

theorem filter_map_of_key_preserved {α : Type} (f : α → α) (p : α → Bool) (l : List α)
    (hp : ∀ x, p (f x) = p x) :
    (l.map f).filter p = (l.filter p).map f := by
  rw [List.filter_map]
  congr 1
  exact List.filter_congr (fun x _ => hp x)

theorem keyed_filter_length_le_one (l : List CartItem) (c p : Nat)
    (hU : l.Pairwise (fun a b => ¬(a.cart = b.cart ∧ a.product = b.product))) :
    (l.filter (fun it => it.cart == c && it.product == p)).length ≤ 1 := by
  have h := hU.filter (fun it => it.cart == c && it.product == p)
  cases hm : l.filter (fun it => it.cart == c && it.product == p) with
  | nil => simp [hm]
  | cons x xs =>
    cases hxs : xs with
    | nil => simp [hm, hxs]
    | cons y rest =>
      exfalso
      rw [hm, hxs] at h
      have hy : y ∈ l.filter (fun it => it.cart == c && it.product == p) := by
        rw [hm, hxs]; simp
      have hx : x ∈ l.filter (fun it => it.cart == c && it.product == p) := by
        rw [hm]; simp
      have hxk := (List.mem_filter.mp hx).2
      have hyk := (List.mem_filter.mp hy).2
      simp only [Bool.and_eq_true, beq_iff_eq] at hxk hyk
      have hR := (List.pairwise_cons.mp h).1 y (by simp)
      exact hR ⟨hxk.1.trans hyk.1.symm, hxk.2.trans hyk.2.symm⟩

/-- The models.py uniqueness constraint read per key: at most one row per
(cart, product) pair. -/
theorem cartRowsFor_length_le_one (st : Store) (c p : Nat) (hU : UniqueCartProduct st) :
    (cartRowsFor st c p).length ≤ 1 :=
  keyed_filter_length_le_one st.cartItems c p hU

/-- Properties of the conversion's bulk create: the created rows copy the
source (product, quantity) pairs verbatim, in order. -/
theorem bulkCreate_map_pq (oid : Nat) (l : List CartItem) : ∀ s,
    (bulkCreateOrderItems oid s l).map (fun oi => (oi.product, oi.quantity))
      = l.map (fun it => (it.product, it.quantity)) := by
  induction l with
  | nil => intro s; rfl
  | cons it rest ih => intro s; simp [bulkCreateOrderItems, ih (s + 1)]

/-- Every row the bulk create emits belongs to the new order. -/
theorem bulkCreate_order (oid : Nat) (l : List CartItem) : ∀ s,
    ∀ oi ∈ bulkCreateOrderItems oid s l, oi.order = oid := by
  induction l with
  | nil => intro s oi hoi; cases hoi
  | cons it rest ih =>
    intro s oi hoi
    rcases List.mem_cons.mp hoi with h | h
    · rw [h]
    · exact ih (s + 1) oi h

/-- Every row the bulk create emits has a source cart item with the same
product and quantity. -/
theorem bulkCreate_mem_source (oid : Nat) (l : List CartItem) : ∀ s,
    ∀ oi ∈ bulkCreateOrderItems oid s l,
      ∃ it ∈ l, oi.product = it.product ∧ oi.quantity = it.quantity := by
  induction l with
  | nil => intro s oi hoi; cases hoi
  | cons it rest ih =>
    intro s oi hoi
    rcases List.mem_cons.mp hoi with h | h
    · exact ⟨it, List.mem_cons_self it rest, by rw [h], by rw [h]⟩
    · obtain ⟨it2, hit2, hpq⟩ := ih (s + 1) oi h
      exact ⟨it2, List.mem_cons_of_mem it hit2, hpq⟩

/-- C3: for every cart no two CartItems share a (cart, product) pair
(`unique_product_per_cart`, preserved by the upsert), and
`CartItemPostSerializer.save` on a cart already containing the product with
quantity q0 returns the existing row's id and leaves exactly one row for the
pair, with quantity q0+q; when the pair is absent a new row is created.
Rows under every other (cart, product) key are untouched. -/
theorem claim_C3_cart_item_upsert (st : Store) (c p q : Nat) (st' : Store) (iid : Nat)
    (hWF : WF st) (hU : UniqueCartProduct st)
    (h : addItem st c p q = .ok (st', iid)) :
    UniqueCartProduct st' ∧
    (∀ it0 ∈ st.cartItems, it0.cart = c → it0.product = p →
        iid = it0.id ∧
        cartRowsFor st' c p = [{ it0 with quantity := it0.quantity + q }]) ∧
    ((∀ it ∈ st.cartItems, ¬(it.cart = c ∧ it.product = p)) →
        cartRowsFor st' c p = [⟨st.nextCartItemId, c, p, q⟩]) ∧
    (∀ c2 p2, ¬(c2 = c ∧ p2 = p) → cartRowsFor st' c2 p2 = cartRowsFor st c2 p2) := by
  unfold addItem at h
  split at h
  · simp at h
  · split at h
    · simp at h
    · split at h
      case _ it0' hfind =>
        simp only [Except.ok.injEq, Prod.mk.injEq] at h
        obtain ⟨hst', hiid⟩ := h
        have hmem' : it0' ∈ st.cartItems := List.mem_of_find?_eq_some hfind
        have hkey' : it0'.cart = c ∧ it0'.product = p := by
          have := List.find?_some hfind
          simpa using this
        have hpres : ∀ x : CartItem,
            ((if x.id == it0'.id then { x with quantity := x.quantity + q } else x).cart = x.cart)
            ∧ ((if x.id == it0'.id then { x with quantity := x.quantity + q } else x).product
                = x.product) := by
          intro x
          by_cases hid : (x.id == it0'.id) = true
          · simp [hid]
          · simp [hid]
        have hkeep : ∀ c2 p2, ∀ x : CartItem,
            ((if x.id == it0'.id then { x with quantity := x.quantity + q } else x).cart == c2 &&
             (if x.id == it0'.id then { x with quantity := x.quantity + q } else x).product == p2)
            = (x.cart == c2 && x.product == p2) := by
          intro c2 p2 x
          rw [(hpres x).1, (hpres x).2]
        refine ⟨?_, ?_, ?_, ?_⟩
        · rw [← hst']
          simp only [UniqueCartProduct, List.pairwise_map]
          apply hU.imp
          intro a b hab hcon
          exact hab ⟨((hpres a).1.symm.trans hcon.1).trans (hpres b).1,
                     ((hpres a).2.symm.trans hcon.2).trans (hpres b).2⟩
        · intro it0 hmem0 hc hp
          have h0 : it0 ∈ cartRowsFor st c p := by
            apply List.mem_filter.mpr
            exact ⟨hmem0, by simp [hc, hp]⟩
          have h1 : it0' ∈ cartRowsFor st c p := by
            apply List.mem_filter.mpr
            exact ⟨hmem', by simp [hkey'.1, hkey'.2]⟩
          have hle := cartRowsFor_length_le_one st c p hU
          have hs0 := length_le_one_eq_singleton hle h0
          have hs1 := length_le_one_eq_singleton hle h1
          have heq0 : it0 = it0' := by
            have := hs0.symm.trans hs1
            simpa using this
          constructor
          · rw [heq0]
            exact hiid.symm
          · rw [← hst']
            show (st.cartItems.map _).filter _ = _
            rw [filter_map_of_key_preserved _ _ _ (hkeep c p)]
            show (cartRowsFor st c p).map _ = _
            rw [hs0, heq0]
            simp
        · intro hno
          exact absurd ⟨hkey'.1, hkey'.2⟩ (hno it0' hmem')
        · intro c2 p2 hne
          rw [← hst']
          show (st.cartItems.map _).filter _ = _
          rw [filter_map_of_key_preserved _ _ _ (hkeep c2 p2)]
          have hid_inj := hWF.2.1
          show (cartRowsFor st c2 p2).map _ = cartRowsFor st c2 p2
          have hcongr : ∀ x ∈ cartRowsFor st c2 p2,
              (if x.id == it0'.id then { x with quantity := x.quantity + q } else x) = id x := by
            intro x hx
            have hxmem : x ∈ st.cartItems := (List.mem_filter.mp hx).1
            have hxkey := (List.mem_filter.mp hx).2
            simp only [Bool.and_eq_true, beq_iff_eq] at hxkey
            by_cases hid : (x.id == it0'.id) = true
            · exfalso
              have hxq : x = it0' :=
                List.inj_on_of_nodup_map hid_inj hxmem hmem' (by simpa using hid)
              apply hne
              rw [← hxkey.1, ← hxkey.2, hxq, hkey'.1, hkey'.2]
              exact ⟨rfl, rfl⟩
            · simp [hid]
          rw [List.map_congr_left hcongr, List.map_id]
      case _ hfind =>
        split at h
        · simp at h
        · simp only [Except.ok.injEq, Prod.mk.injEq] at h
          obtain ⟨hst', hiid⟩ := h
          have hno' : ∀ it ∈ st.cartItems, ¬(it.cart = c ∧ it.product = p) := by
            intro it hit hcon
            have := List.find?_eq_none.mp hfind it hit
            simp [hcon.1, hcon.2] at this
          refine ⟨?_, ?_, ?_, ?_⟩
          · rw [← hst']
            show (st.cartItems ++ [(⟨st.nextCartItemId, c, p, q⟩ : CartItem)]).Pairwise _
            rw [List.pairwise_append]
            refine ⟨hU, by simp, ?_⟩
            intro a ha b hb
            have hb' : b = (⟨st.nextCartItemId, c, p, q⟩ : CartItem) := by simpa using hb
            rw [hb']
            intro hcon
            exact hno' a ha ⟨hcon.1, hcon.2⟩
          · intro it0 hmem0 hc hp
            exact absurd ⟨hc, hp⟩ (hno' it0 hmem0)
          · intro _
            rw [← hst']
            show (st.cartItems ++ [(⟨st.nextCartItemId, c, p, q⟩ : CartItem)]).filter _ = _
            rw [List.filter_append]
            have h1 : st.cartItems.filter (fun it => it.cart == c && it.product == p) = [] := by
              apply List.filter_eq_nil_iff.mpr
              intro a ha
              intro hcon
              simp only [Bool.and_eq_true, beq_iff_eq] at hcon
              exact hno' a ha ⟨hcon.1, hcon.2⟩
            rw [h1]
            simp
          · intro c2 p2 hne
            rw [← hst']
            show (st.cartItems ++ [(⟨st.nextCartItemId, c, p, q⟩ : CartItem)]).filter _ = _
            rw [List.filter_append]
            have h1 : [(⟨st.nextCartItemId, c, p, q⟩ : CartItem)].filter
                (fun it => it.cart == c2 && it.product == p2) = [] := by
              apply List.filter_eq_nil_iff.mpr
              intro a ha
              have ha' : a = (⟨st.nextCartItemId, c, p, q⟩ : CartItem) := by simpa using ha
              rw [ha']
              intro hcon
              simp only [Bool.and_eq_true, beq_iff_eq] at hcon
              exact hne ⟨hcon.1.symm, hcon.2.symm⟩
            rw [h1]
            simp
            rfl

/-- Witness for C3: in `exStore`, cart 7 already holds two units of product
1; adding three more units returns row 1 and leaves the single row
(cart 7, product 1) with quantity 5. -/
theorem claim_C3_witness :
    addItem exStore 7 1 3 = .ok ({ exStore with cartItems := [⟨1, 7, 1, 5⟩] }, 1) ∧
    cartRowsFor { exStore with cartItems := [⟨1, 7, 1, 5⟩] } 7 1 = [⟨1, 7, 1, 5⟩] := by
  have h := claim_C3_cart_item_upsert exStore 7 1 3
      { exStore with cartItems := [⟨1, 7, 1, 5⟩] } 1
      (by decide) (by decide) (by decide)
  exact ⟨by decide, (h.2.1 ⟨1, 7, 1, 2⟩ (by decide) rfl rfl).2⟩

/-- Conversion of a cart id with no `CartItem` rows — an empty cart, a cart
id that never existed, or an already-converted (deleted) cart — raises the
empty-cart `ValidationError` (or, when the caller has no customer profile,
that `ValidationError`; both are the spec's InvalidArgument kind). -/
theorem createOrder_empty (st : Store) (uid c : Nat) (he : cartItemsOf st c = []) :
    createOrder st uid c = .error .invalidArgument := by
  unfold createOrder
  cases hcu : customerByUser st uid with
  | none => rfl
  | some cu =>
    dsimp only
    have hise : (cartItemsOf st c).isEmpty = true := by rw [he]; rfl
    rw [show (cartItemsOf
        { st with
            orders := ⟨st.nextOrderId, cu.id, .pending⟩ :: st.orders,
            nextOrderId := st.nextOrderId + 1 } c).isEmpty = true from hise]
    rfl

/-- What a successful conversion does to the store, read off the source:
the returned id is the freshly allocated order id, the source cart had
items, catalog rows and customers are untouched, the cart row and its item
rows are gone, and the new order's items are exactly the bulk-created
copies. -/
theorem createOrder_ok_spec (st : Store) (uid c : Nat) (st' : Store) (oid : Nat)
    (hWF : WF st) (h : createOrder st uid c = .ok (st', oid)) :
    oid = st.nextOrderId ∧
    cartItemsOf st c ≠ [] ∧
    st'.products = st.products ∧
    st'.customers = st.customers ∧
    st'.carts = st.carts.filter (fun k => !(k.id == c)) ∧
    st'.cartItems = st.cartItems.filter (fun it => !(it.cart == c)) ∧
    st'.orderItems = st.orderItems
        ++ bulkCreateOrderItems st.nextOrderId st.nextOrderItemId (cartItemsOf st c) ∧
    orderItemsOf st' oid
        = bulkCreateOrderItems st.nextOrderId st.nextOrderItemId (cartItemsOf st c) := by
  unfold createOrder at h
  split at h
  · simp at h
  case _ cu hcu =>
    dsimp only at h
    split at h
    · simp at h
    case _ hne =>
      simp only [Except.ok.injEq, Prod.mk.injEq] at h
      obtain ⟨hst', hoid⟩ := h
      have hne' : cartItemsOf st c ≠ [] := by
        intro he
        apply hne
        show (cartItemsOf st c).isEmpty = true
        rw [he]
        rfl
      refine ⟨hoid.symm, hne', ?_, ?_, ?_, ?_, ?_, ?_⟩
      · rw [← hst']; rfl
      · rw [← hst']; rfl
      · rw [← hst']; rfl
      · rw [← hst']; rfl
      · rw [← hst']; rfl
      · rw [← hst', ← hoid]
        show (st.orderItems
            ++ bulkCreateOrderItems st.nextOrderId st.nextOrderItemId (cartItemsOf st c)).filter _
          = _
        rw [List.filter_append]
        have hold : st.orderItems.filter (fun oi => oi.order == st.nextOrderId) = [] := by
          apply List.filter_eq_nil_iff.mpr
          intro oi hoi
          have hlt := hWF.2.2.2.2.2 oi hoi
          simp only [beq_iff_eq]
          omega
        have hnew : (bulkCreateOrderItems st.nextOrderId st.nextOrderItemId
              (cartItemsOf st c)).filter (fun oi => oi.order == st.nextOrderId)
            = bulkCreateOrderItems st.nextOrderId st.nextOrderItemId (cartItemsOf st c) := by
          apply List.filter_eq_self.mpr
          intro oi hoi
          have := bulkCreate_order st.nextOrderId (cartItemsOf st c) st.nextOrderItemId oi hoi
          simp [this]
        rw [hold, hnew]
        rfl

/-- C1: a successful `createOrder(identity, cartId)` requires a cart with at
least one CartItem; the new order's OrderItems mirror the source CartItems'
(product, quantity) pairs exactly, one per source row and in order; and
afterwards neither the Cart row nor any of its CartItem rows exist. -/
theorem claim_C1_conversion_mirrors_cart (st : Store) (uid c : Nat) (st' : Store) (oid : Nat)
    (hWF : WF st) (h : createOrder st uid c = .ok (st', oid)) :
    cartItemsOf st c ≠ [] ∧
    (orderItemsOf st' oid).map (fun oi => (oi.product, oi.quantity))
      = (cartItemsOf st c).map (fun it => (it.product, it.quantity)) ∧
    (∀ k ∈ st'.carts, k.id ≠ c) ∧
    cartItemsOf st' c = [] := by
  obtain ⟨hoid, hne, _, _, hcarts, hitems, _, hfilter⟩ :=
    createOrder_ok_spec st uid c st' oid hWF h
  refine ⟨hne, ?_, ?_, ?_⟩
  · rw [hfilter]
    exact bulkCreate_map_pq st.nextOrderId (cartItemsOf st c) st.nextOrderItemId
  · intro k hk
    rw [hcarts] at hk
    have h2 := (List.mem_filter.mp hk).2
    simpa using h2
  · show st'.cartItems.filter _ = []
    rw [hitems]
    exact filter_not_filter_eq_nil _ _

/-- Witness for C1: converting cart 7 of `exStore` for auth user 42 yields
order 1 whose single item copies (product 1, quantity 2); cart 7 and its
item are gone. -/
theorem claim_C1_witness :
    createOrder exStore 42 7 = .ok (exConverted, 1) ∧
    (orderItemsOf exConverted 1).map (fun oi => (oi.product, oi.quantity))
      = (cartItemsOf exStore 7).map (fun it => (it.product, it.quantity)) ∧
    cartItemsOf exConverted 7 = [] := by
  have h := claim_C1_conversion_mirrors_cart exStore 42 7 exConverted 1 (by decide) (by decide)
  exact ⟨by decide, h.2.1, h.2.2.2⟩

/-- C2: converting a cart id with zero CartItems — including an id that was
already converted (its cart deleted) or never existed — fails with
InvalidArgument and, the operation being one atomic transaction, persists
no Order row and no OrderItem row (`runCreateOrder` returns the store
unchanged); consequently a second conversion of a successfully converted
cart id always fails and never produces a second order. -/
theorem claim_C2_conversion_empty_and_idempotent (st : Store) (uid c : Nat) (hWF : WF st) :
    (cartItemsOf st c = [] →
        createOrder st uid c = .error .invalidArgument ∧ runCreateOrder st uid c = st) ∧
    (∀ st' oid, createOrder st uid c = .ok (st', oid) →
        ∀ uid2, createOrder st' uid2 c = .error .invalidArgument ∧
          runCreateOrder st' uid2 c = st') := by
  constructor
  · intro he
    have h1 := createOrder_empty st uid c he
    refine ⟨h1, ?_⟩
    unfold runCreateOrder
    rw [h1]
  · intro st' oid h uid2
    obtain ⟨_, _, _, _, _, hitems, _, _⟩ := createOrder_ok_spec st uid c st' oid hWF h
    have he : cartItemsOf st' c = [] := by
      show st'.cartItems.filter _ = []
      rw [hitems]
      exact filter_not_filter_eq_nil _ _
    have h1 := createOrder_empty st' uid2 c he
    refine ⟨h1, ?_⟩
    unfold runCreateOrder
    rw [h1]

/-- Witness for C2: cart 8 has no rows in `exStore` (it never existed), so
conversion fails and changes nothing; and after the successful conversion
of cart 7, converting id 7 again fails and changes nothing. -/
theorem claim_C2_witness :
    (createOrder exStore 42 8 = .error .invalidArgument ∧
      runCreateOrder exStore 42 8 = exStore) ∧
    (createOrder exConverted 42 7 = .error .invalidArgument ∧
      runCreateOrder exConverted 42 7 = exConverted) := by
  constructor
  · exact (claim_C2_conversion_empty_and_idempotent exStore 42 8 (by decide)).1 (by decide)
  · exact (claim_C2_conversion_empty_and_idempotent exStore 42 7 (by decide)).2
      exConverted 1 (by decide) 42

/-- C4: `cancel(orderId, actor)` succeeds exactly when the order's current
status is Pending, in which case the status becomes Cancelled and every
other row — the other orders included — and every other field of the order
is untouched; for every other status it fails with InvalidState and the
store (`runCancelOrder`) is unchanged. -/
theorem claim_C4_cancel_only_pending (st : Store) (oid : Nat) (o : Order)
    (hfind : findOrder st oid = some o) :
    (o.status = .pending →
        ∃ st', cancelOrder st oid = .ok st' ∧
          findOrder st' oid = some { o with status := .cancelled } ∧
          (∀ o2 ∈ st.orders, o2.id ≠ oid → o2 ∈ st'.orders) ∧
          st'.carts = st.carts ∧ st'.cartItems = st.cartItems ∧
          st'.products = st.products ∧ st'.orderItems = st.orderItems ∧
          st'.customers = st.customers ∧ st'.collections = st.collections) ∧
    (o.status ≠ .pending →
        cancelOrder st oid = .error .invalidState ∧ runCancelOrder st oid = st) := by
  have hido : (o.id == oid) = true := by
    have := List.find?_some hfind
    simpa using this
  constructor
  · intro hp
    have hc : cancelOrder st oid
        = .ok { st with orders := st.orders.map (fun o2 =>
            if o2.id == oid then { o2 with status := .cancelled } else o2) } := by
      unfold cancelOrder
      rw [hfind]
      dsimp only
      rw [if_neg (fun hne => hne hp)]
    refine ⟨_, hc, ?_, ?_, rfl, rfl, rfl, rfl, rfl, rfl⟩
    · show (st.orders.map _).find? _ = _
      have hpres : ∀ x : Order,
          ((if x.id == oid then { x with status := OrderStatus.cancelled } else x).id == oid)
            = (x.id == oid) := by
        intro x
        by_cases hid : (x.id == oid) = true
        · simp [hid]
        · simp [hid]
      rw [find?_map_setter _ _ _ hpres hfind]
      rw [if_pos hido]
    · intro o2 h2 hne
      refine List.mem_map.mpr ⟨o2, h2, ?_⟩
      simp [hne]
  · intro hnp
    have hc : cancelOrder st oid = .error .invalidState := by
      unfold cancelOrder
      rw [hfind]
      dsimp only
      rw [if_pos hnp]
    refine ⟨hc, ?_⟩
    unfold runCancelOrder
    rw [hc]

/-- Witness for C4: in `exOrders`, cancelling pending order 1 succeeds and
sets its status to Cancelled; cancelling shipped order 2 fails with
InvalidState and leaves the store unchanged. -/
theorem claim_C4_witness :
    (∃ st', cancelOrder exOrders 1 = .ok st' ∧
        findOrder st' 1 = some ⟨1, 1, .cancelled⟩) ∧
    (cancelOrder exOrders 2 = .error .invalidState ∧ runCancelOrder exOrders 2 = exOrders) := by
  constructor
  · obtain ⟨st', h1, h2, _⟩ :=
      (claim_C4_cancel_only_pending exOrders 1 ⟨1, 1, .pending⟩ (by decide)).1 rfl
    exact ⟨st', h1, h2⟩
  · exact (claim_C4_cancel_only_pending exOrders 2 ⟨2, 1, .shipped⟩ (by decide)).2 (by decide)

/-- C5 (code bug): the administrative partial-update path can never accept
a status code, valid or not.  `OrderPatchSerializer.Meta.fields` names
`payment_status`, which is not a field of the `Order` model, so for every
existing order the serializer's field construction raises
`ImproperlyConfigured` (an untranslated HTTP 500) before any choice
validation or write happens — contradicting the claim and the repository's
own tests (test_order.py, `TestPartialUpdateOrder`), which expect a valid
code among the seven to be accepted and written and an invalid one to be
rejected with 400. -/
theorem claim_C5_set_status_misconfigured (st : Store) (oid : Nat) (code : String)
    (h : (findOrder st oid).isSome) :
    patchOrder st oid code = .error .internal := by
  unfold patchOrder
  cases hf : findOrder st oid with
  | none => rw [hf] at h; simp at h
  | some o => rfl

/-- Witness for C5: patching existing order 1 with the valid status code S
(Shipped) still produces the untranslated configuration error. -/
theorem claim_C5_witness : patchOrder exOrders 1 "S" = .error .internal :=
  claim_C5_set_status_misconfigured exOrders 1 "S" (by decide)

/-- After a successful re-price, the product's stored price is the new
value. -/
theorem productPrice_after_update (st : Store) (pid np : Nat) (st2 : Store)
    (h : updateProductPrice st pid np = .ok st2) :
    productPrice st2 pid = np := by
  unfold updateProductPrice at h
  split at h
  · simp at h
  case _ prod hf =>
    split at h
    · simp at h
    · simp only [Except.ok.injEq] at h
      have hidp : (prod.id == pid) = true := by
        have := List.find?_some hf
        simpa using this
      have hpres : ∀ x : Product,
          ((if x.id == pid then { x with price := np } else x).id == pid) = (x.id == pid) := by
        intro x
        by_cases hid : (x.id == pid) = true
        · simp [hid]
        · simp [hid]
      rw [← h]
      unfold productPrice findProduct
      dsimp only
      rw [find?_map_setter _ _ _ hpres hf]
      rw [if_pos hidp]

/-- C6: conversion stores no price on the OrderItem — the `OrderItem` model
has only order, product and quantity columns, copied from the cart — and
the price exposed at read time is quantity × the product's price at the
moment of the read: after an admin re-prices the product, the exposed
total is quantity × the new price, and whenever the new price differs from
the price at purchase time (and the quantity is positive) the exposed
total differs from the total at purchase time. -/
theorem claim_C6_prices_resolved_live (st : Store) (uid c : Nat) (st' : Store) (oid : Nat)
    (hWF : WF st) (h : createOrder st uid c = .ok (st', oid)) :
    (∀ oi ∈ orderItemsOf st' oid,
        ∃ it ∈ cartItemsOf st c, oi.product = it.product ∧ oi.quantity = it.quantity) ∧
    (∀ oi ∈ orderItemsOf st' oid, ∀ np st2,
        updateProductPrice st' oi.product np = .ok st2 →
        orderItemTotalPrice st2 oi = oi.quantity * np ∧
        (1 ≤ oi.quantity → np ≠ productPrice st' oi.product →
          orderItemTotalPrice st2 oi ≠ orderItemTotalPrice st' oi)) := by
  obtain ⟨_, _, _, _, _, _, _, hfilter⟩ := createOrder_ok_spec st uid c st' oid hWF h
  constructor
  · intro oi hoi
    rw [hfilter] at hoi
    exact bulkCreate_mem_source st.nextOrderId (cartItemsOf st c) st.nextOrderItemId oi hoi
  · intro oi _ np st2 hupd
    have hpp := productPrice_after_update st' oi.product np st2 hupd
    constructor
    · unfold orderItemTotalPrice
      rw [hpp]
    · intro hq hne2
      unfold orderItemTotalPrice
      rw [hpp]
      intro heq
      exact hne2 (Nat.eq_of_mul_eq_mul_left (Nat.lt_of_lt_of_le Nat.zero_lt_one hq) heq)

/-- Witness for C6: the order item created from cart 7 (2 units of product
1, bought at 10.00 each) reads as 40.00 after the product is re-priced to
20.00 — different from the 20.00 it read at purchase time. -/
theorem claim_C6_witness :
    orderItemTotalPrice exRepriced ⟨1, 1, 1, 2⟩ = 2 * 2000 ∧
    orderItemTotalPrice exRepriced ⟨1, 1, 1, 2⟩ ≠ orderItemTotalPrice exConverted ⟨1, 1, 1, 2⟩ := by
  have h := (claim_C6_prices_resolved_live exStore 42 7 exConverted 1
      (by decide) (by decide)).2 ⟨1, 1, 1, 2⟩ (by decide) 2000 exRepriced (by decide)
  exact ⟨h.1, h.2 (by decide) (by decide)⟩

/-- C8: deleting a Collection referenced by at least one Product fails with
the blocked-delete Conflict kind and the store — the collection row
included — is unchanged; deleting a Collection that exists and is
referenced by no Product succeeds and removes the row. -/
theorem claim_C8_collection_delete_blocked_then_ok (st : Store) (cid : Nat) :
    (st.products.any (fun p => p.collection == cid) = true →
        destroyCollection st cid = .error .conflict ∧ runDestroyCollection st cid = st) ∧
    (st.products.any (fun p => p.collection == cid) = false →
        (findCollection st cid).isSome →
        ∃ st', destroyCollection st cid = .ok st' ∧
          findCollection st' cid = none ∧
          st'.collections = st.collections.filter (fun c2 => !(c2.id == cid)) ∧
          st'.products = st.products) := by
  constructor
  · intro hany
    have hc : destroyCollection st cid = .error .conflict := by
      unfold destroyCollection
      rw [if_pos hany]
    refine ⟨hc, ?_⟩
    unfold runDestroyCollection
    rw [hc]
  · intro hnone hsome
    obtain ⟨col, hf⟩ := Option.isSome_iff_exists.mp hsome
    have hd : destroyCollection st cid
        = .ok { st with collections := st.collections.filter (fun c2 => !(c2.id == cid)) } := by
      unfold destroyCollection
      rw [if_neg (by simp [hnone])]
      rw [hf]
    refine ⟨_, hd, ?_, rfl, rfl⟩
    show (st.collections.filter _).find? _ = none
    exact find?_filter_not_eq_none _ _

/-- Witness for C8: deleting collection 1 of `exC8` is refused while
product 5 references it; after product 5 is removed (`exC8b`), deleting
collection 1 succeeds. -/
theorem claim_C8_witness :
    destroyCollection exC8 1 = .error .conflict ∧
    deleteProduct exC8 5 = .ok exC8b ∧
    (∃ st', destroyCollection exC8b 1 = .ok st' ∧ findCollection st' 1 = none) := by
  refine ⟨((claim_C8_collection_delete_blocked_then_ok exC8 1).1 (by decide)).1, by decide, ?_⟩
  obtain ⟨st', h1, h2, _⟩ :=
    (claim_C8_collection_delete_blocked_then_ok exC8b 1).2 (by decide) (by decide)
  exact ⟨st', h1, h2⟩

/-- C10: deleting a Product referenced by any OrderItem is blocked (the
store raises the untranslated protect error and nothing changes); deleting
a Product referenced by no OrderItem succeeds and silently cascades — the
cart rows survive but every CartItem referencing the product disappears
from every cart, with no Cart Service operation involved, so a cart's
contents and its computed total can change behind the cart's back. -/
theorem claim_C10_product_delete_protect_cascade (st : Store) (pid : Nat)
    (h : (findProduct st pid).isSome) :
    (st.orderItems.any (fun oi => oi.product == pid) = true →
        deleteProduct st pid = .error .internal) ∧
    (st.orderItems.any (fun oi => oi.product == pid) = false →
        ∃ st', deleteProduct st pid = .ok st' ∧
          st'.carts = st.carts ∧
          st'.orders = st.orders ∧
          st'.orderItems = st.orderItems ∧
          (∀ c2, cartItemsOf st' c2 = (cartItemsOf st c2).filter (fun it => !(it.product == pid))) ∧
          (findProduct st' pid).isNone) := by
  obtain ⟨prod, hf⟩ := Option.isSome_iff_exists.mp h
  constructor
  · intro hany
    unfold deleteProduct
    rw [hf]
    dsimp only
    rw [if_pos hany]
  · intro hnone
    have hd : deleteProduct st pid
        = .ok { st with
                  products := st.products.filter (fun p2 => !(p2.id == pid)),
                  cartItems := st.cartItems.filter (fun it => !(it.product == pid)),
                  reviews := st.reviews.filter (fun r => !(r.product == pid)),
                  collections := st.collections.map (fun c2 =>
                    if c2.featuredProduct == some pid then { c2 with featuredProduct := none }
                    else c2) } := by
      unfold deleteProduct
      rw [hf]
      dsimp only
      rw [if_neg (by simp [hnone])]
    refine ⟨_, hd, rfl, rfl, rfl, ?_, ?_⟩
    · intro c2
      show (st.cartItems.filter (fun it => !(it.product == pid))).filter _ = _
      rw [List.filter_filter]
      show _ = (st.cartItems.filter (fun it => it.cart == c2)).filter _
      rw [List.filter_filter]
      apply List.filter_congr
      intro x _
      rw [Bool.and_comm]
    · show ((st.products.filter (fun p2 => !(p2.id == pid))).find? (fun p2 => p2.id == pid)).isNone
        = true
      rw [find?_filter_not_eq_none]
      rfl

/-- Witness for C10: in `exC10`, product 2 is protected by an order item
and cannot be deleted; deleting product 1 succeeds, empties cart 7 behind
the cart's back, and drops the cart's computed total from 20.00 to 0. -/
theorem claim_C10_witness :
    deleteProduct exC10 2 = .error .internal ∧
    cartTotalPrice exC10 7 = 2000 ∧
    (∃ st', deleteProduct exC10 1 = .ok st' ∧ st'.carts = exC10.carts ∧
        cartItemsOf st' 7 = [] ∧ cartTotalPrice st' 7 = 0) := by
  refine ⟨(claim_C10_product_delete_protect_cascade exC10 2 (by decide)).1 (by decide),
    by decide, ?_⟩
  obtain ⟨st', h1, hcarts, _, _, hitems, _⟩ :=
    (claim_C10_product_delete_protect_cascade exC10 1 (by decide)).2 (by decide)
  have hempty : cartItemsOf st' 7 = [] := by
    rw [hitems 7]
    decide
  refine ⟨st', h1, hcarts, hempty, ?_⟩
  unfold cartTotalPrice
  rw [hempty]
  rfl

end ECommerce
